import Mathlib

/-!
Shallow embedding of `src/configReader.C` (RNO-G configuration reader).

The program renders parsed libconfig settings as strings
(`settingValueToString`), resolves dotted paths and aliases
(`getSettingValue`, `getCommonSettingValue`), and reads a per-run
configuration file (`readConfigFile`, `configReader`).  Settings are
modelled as an inductive tree; a parsed configuration is modelled as a
lookup function from dotted paths to settings (libconfig's
`Config::lookup`, whose `SettingException` on failure is modelled as
`none`); console output is modelled as a returned list of lines; the
process working directory and the filesystem touched by `readConfigFile`
are modelled as an explicit `World` state.
-/

namespace ConfigReader

/-- The libconfig setting kinds used by the program
(`libconfig::Setting::TypeInt`, `TypeFloat`, ...). -/
inductive SettingType where
  | tInt
  | tFloat
  | tBool
  | tString
  | tArray
  | tList
  | tGroup
deriving DecidableEq

/-- A parsed libconfig setting tree.  A float value is carried as its two
platform decimal renderings — `tostr` for `std::to_string(float)` and
`streamstr` for `stringstream << float` — abstracted as strings because the
exact C++ float formatting is platform-defined and no claim depends on the
digits themselves.  Group children are name/setting pairs
(`Setting::getName`). -/
inductive Setting where
  | sInt (v : Int)
  | sFloat (tostr streamstr : String)
  | sBool (b : Bool)
  | sString (s : String)
  | sArray (elems : List Setting)
  | sList (elems : List Setting)
  | sGroup (children : List (String × Setting))

/-- `setting.getType()`. -/
def kindOf : Setting → SettingType
  | .sInt _ => .tInt
  | .sFloat _ _ => .tFloat
  | .sBool _ => .tBool
  | .sString _ => .tString
  | .sArray _ => .tArray
  | .sList _ => .tList
  | .sGroup _ => .tGroup

/-- Contribution of one array/list element to the stringstream in
`settingValueToString` (lines 67-77 and 100-110 of `configReader.C`):
an integer or float element is inserted into the stream, every other
kind leaves the stream empty. -/
def elemStr : Setting → String
  | .sInt v => toString v
  | .sFloat _ streamstr => streamstr
  | _ => ""

/-- The indexed accumulation loop shared (up to the bracket and separator
strings) by the array branch (lines 65-91), the list branch (lines 98-124)
and the group branch (lines 171-188): item `i` of the already-rendered
items `ss` prepends `opn` when `i = 0`, otherwise is prefixed by `sep`,
and additionally appends `cls` when `i = n - 1` (an `else if`, so a sole
item at `i = 0` never receives `cls`). -/
def renderLoop (opn sep cls : String) (n : Nat) : Nat → List String → String → String
  | _, [], value => value
  | i, s :: rest, value =>
    renderLoop opn sep cls n (i + 1) rest
      (if i = 0 then value ++ opn ++ s
       else if i = n - 1 then value ++ sep ++ s ++ cls
       else value ++ sep ++ s)

/-- `settingValueToString` (lines 39-129): dispatch on the setting kind;
arrays render through the `[`/`,`/`]` loop, lists through the `(`/`,`/`)`
loop, a group or any other unhandled kind falls through to `""`
(line 128). -/
def settingValueToString : Setting → String
  | .sInt v => toString v
  | .sString s => s
  | .sBool b => if b then "1" else "0"
  | .sFloat tostr _ => tostr
  | .sArray es => renderLoop "[" "," "]" es.length 0 (es.map elemStr) ""
  | .sList es => renderLoop "(" "," ")" es.length 0 (es.map elemStr) ""
  | .sGroup _ => ""

/-- A parsed configuration: `Config::lookup` either resolves a dotted path
to a setting or fails (libconfig throws a `SettingException`, modelled as
`none`). -/
structure Config where
  lookup : String → Option Setting

/-- The `what()` text of the `SettingException` raised by a failed lookup,
abstracted as a fixed string (its exact wording comes from libconfig). -/
def settingExceptionWhat : String := "SettingNotFoundException"

/-- The diagnostic printed by `getSettingValue`'s catch block (line 195):
`"Error: " << ex.what() << ": " << path`. -/
def lookupErrorMsg (path : String) : String :=
  "Error: " ++ settingExceptionWhat ++ ": " ++ path

/-- `getSettingValue` (lines 158-198).  Returns the rendered value together
with the list of console lines printed during the call.  A non-group
setting is rendered by `settingValueToString`; a group is rendered by the
`{\n` / `, \n` / `\n}` loop over its children, each child rendered by
`settingValueToString` (line 174) with the field text
`name ++ " = " ++ value`; a failed lookup is caught and reported, and the
function returns the empty string. -/
def getSettingValue (config : Config) (path : String) : String × List String :=
  match config.lookup path with
  | none => ("", [lookupErrorMsg path])
  | some (.sGroup cs) =>
    (renderLoop "\x7b\n" ", \n" "\n\x7d" cs.length 0
      (cs.map fun c => c.1 ++ " = " ++ settingValueToString c.2) "", [])
  | some setting => (settingValueToString setting, [])

/-- The fixed alias table `commonSettings` (lines 233-238). -/
def commonSettings : List (String × String) :=
  [("rf0_enabled", "radiant.trigger.RF0.enabled"),
   ("rf1_enabled", "radiant.trigger.RF1.enabled"),
   ("scalers_use_pps", "radiant.scalers.use_pps")]

/-- `getCommonSettingValue` (lines 226-251).  `alias.find(".") !=
std::string::npos` is modelled as `'.'` occurring among the characters of
the alias.  A dotted alias is passed straight to `getSettingValue`; an
undotted alias is looked up in the table, and an unknown one is reported
and yields the empty string. -/
def getCommonSettingValue (config : Config) (a : String) : String × List String :=
  if a.toList.contains '.' then
    getSettingValue config a
  else
    match commonSettings.lookup a with
    | some path => getSettingValue config path
    | none => ("", ["Error: Unknown common setting alias: " ++ a])

/-- Outcome of `Config::readFile` on a given absolute path: the file is
missing/unreadable (`FileIOException`), malformed (`ParseException`, which
carries a file name, line and error text), or parses to a configuration. -/
inductive FileResult where
  | missing
  | parseErr (file : String) (line : Int) (err : String)
  | parsed (cfg : Config)

/-- The process state visible to `readConfigFile`: the current working
directory and the filesystem, mapping each absolute path to the outcome of
opening and parsing the file there. -/
structure World where
  cwd : String
  fs : String → FileResult

/-- POSIX resolution of a path against a working directory: an absolute
path stands alone, a relative one is appended to the directory. -/
def resolvePath (cwd p : String) : String :=
  if p.startsWith "/" then p
  else if cwd = "/" then "/" ++ p
  else cwd ++ "/" ++ p

/-- `readConfigFile` (lines 281-303): builds
`<directory>/station<station>/run<run>/cfg/acq.cfg`, calls `chdir("/")`
(line 288, modelled as setting `cwd` to `"/"`), opens and parses the file
(opening resolves the path against the now-current working directory),
and on success prints `getCommonSettingValue`'s diagnostics followed by
`<path> : <value>`.  The function is `void`: it returns only the final
process state and the console lines. -/
def readConfigFile (station run : Int) (directory configSettingPath : String)
    (w : World) : World × List String :=
  let configFilepath :=
    directory ++ "/station" ++ toString station ++ "/run" ++ toString run
      ++ "/cfg/" ++ "acq.cfg"
  let w' : World := { w with cwd := "/" }
  match w'.fs (resolvePath w'.cwd configFilepath) with
  | .missing => (w', ["Error: I/O error while reading file."])
  | .parseErr f l e =>
    (w', ["Error: Parse error at " ++ f ++ ":" ++ toString l ++ " - " ++ e])
  | .parsed cfg =>
    let value_f := getCommonSettingValue cfg configSettingPath
    (w', value_f.2 ++ [configSettingPath ++ " : " ++ value_f.1])

/-- `configReader` (lines 332-335): the example entry point.  Its body is
`return readConfigFile(station, run, directory, "radiant.scalers.period")`;
the `setting_path_alias` parameter is never used. -/
def configReader (station run : Int) (directory setting_path_alias : String)
    (w : World) : World × List String :=
  readConfigFile station run directory "radiant.scalers.period" w

/-- Specification-side join of a list of strings with a separator, used to
phrase the rendered output of the accumulation loops. -/
def joinSep (sep : String) : List String → String
  | [] => ""
  | [s] => s
  | s :: rest => s ++ sep ++ joinSep sep rest

/-! ### Lemmas about the accumulation loop -/

theorem joinSep_cons_of_ne_nil (sep s : String) (rest : List String)
    (h : rest ≠ []) : joinSep sep (s :: rest) = s ++ sep ++ joinSep sep rest := by
  cases rest with
  | nil => exact absurd rfl h
  | cons t ts => rfl

theorem renderLoop_nil (opn sep cls : String) (n i : Nat) (value : String) :
    renderLoop opn sep cls n i [] value = value := rfl

/-- The loop over the items after the first: every remaining item is
`sep`-prefixed and the final one (at index `n - 1`) also appends `cls`. -/
theorem renderLoop_tail (opn sep cls : String) (n : Nat) :
    ∀ (ss : List String) (i : Nat) (value : String), ss ≠ [] → 1 ≤ i →
      i + ss.length = n →
      renderLoop opn sep cls n i ss value =
        value ++ sep ++ joinSep sep ss ++ cls
  | [], _, _, hne, _, _ => absurd rfl hne
  | [s], i, value, _, hi, hn => by
    have hi0 : ¬ i = 0 := by omega
    have hlast : i = n - 1 := by
      simp only [List.length_singleton] at hn; omega
    rw [renderLoop, if_neg hi0, if_pos hlast, renderLoop_nil]
    rfl
  | s :: t :: rest, i, value, _, hi, hn => by
    have hi0 : ¬ i = 0 := by omega
    have hmid : ¬ i = n - 1 := by
      simp only [List.length_cons] at hn; omega
    have hn' : (i + 1) + (t :: rest).length = n := by
      simp only [List.length_cons] at hn ⊢; omega
    have ih := renderLoop_tail opn sep cls n (t :: rest) (i + 1)
      (value ++ sep ++ s) (by simp) (by omega) hn'
    rw [renderLoop, if_neg hi0, if_neg hmid, ih,
      joinSep_cons_of_ne_nil sep s (t :: rest) (by simp)]
    simp only [String.append_assoc]

/-- A loop over at least two items renders as
`opn ++ joinSep sep ss ++ cls`. -/
theorem renderLoop_format (opn sep cls : String) (ss : List String)
    (n : Nat) (hn : n = ss.length) (h2 : 2 ≤ ss.length) :
    renderLoop opn sep cls n 0 ss "" = opn ++ joinSep sep ss ++ cls := by
  cases ss with
  | nil => simp only [List.length_nil] at h2; omega
  | cons s ts =>
    cases ts with
    | nil => simp only [List.length_cons, List.length_nil] at h2; omega
    | cons t rest =>
      have hn' : 1 + (t :: rest).length = n := by
        simp only [List.length_cons] at hn ⊢; omega
      have htail := renderLoop_tail opn sep cls n (t :: rest) 1
        ("" ++ opn ++ s) (by simp) (by omega) hn'
      rw [renderLoop, if_pos rfl, htail,
        joinSep_cons_of_ne_nil sep s (t :: rest) (by simp)]
      simp only [String.empty_append, String.append_assoc]

/-- A loop over exactly one item emits `opn` and the item but never `cls`
(the `i = n - 1` branch is shadowed by the `i = 0` branch). -/
theorem renderLoop_single (opn sep cls s : String) :
    renderLoop opn sep cls 1 0 [s] "" = opn ++ s := by
  rw [renderLoop, if_pos rfl, renderLoop_nil]
  simp only [String.empty_append]

/-! ### Concrete configuration fixtures -/

/-- A configuration with no settings at all: every lookup fails. -/
def cfgEmpty : Config := ⟨fun _ => none⟩

/-- A configuration whose path `g` holds the two-child group
`{a = 1, b = 2}`. -/
def cfgTwoChild : Config :=
  ⟨fun p =>
    if p = "g" then some (.sGroup [("a", .sInt 1), ("b", .sInt 2)]) else none⟩

/-- A configuration whose path `g` holds the one-child group `{a = 1}`. -/
def cfgOneChild : Config :=
  ⟨fun p => if p = "g" then some (.sGroup [("a", .sInt 1)]) else none⟩

/-- A configuration whose path `g` holds a group with a nested non-empty
group child `inner` followed by an integer child `z`. -/
def cfgNested : Config :=
  ⟨fun p =>
    if p = "g" then
      some (.sGroup
        [("inner", .sGroup [("x", .sInt 1), ("y", .sInt 2)]), ("z", .sInt 3)])
    else none⟩

/-! ### Claims -/

/-- C1 (amended): an array setting whose elements are all of integer or
float kind renders as the elements' decimal renderings comma-separated
with no spaces and enclosed in square brackets when it has at least two
elements, and a list likewise in parentheses; with exactly one element
the opening bracket/parenthesis is emitted but the closing one is not. -/
theorem C1_array_list_render (es : List Setting) (e : Setting)
    (h2 : 2 ≤ es.length)
    (hkinds : ∀ x ∈ es, kindOf x = .tInt ∨ kindOf x = .tFloat) :
    settingValueToString (.sArray es) =
      "[" ++ joinSep "," (es.map elemStr) ++ "]" ∧
    settingValueToString (.sList es) =
      "(" ++ joinSep "," (es.map elemStr) ++ ")" ∧
    settingValueToString (.sArray [e]) = "[" ++ elemStr e ∧
    settingValueToString (.sList [e]) = "(" ++ elemStr e := by
  refine ⟨?_, ?_, ?_, ?_⟩
  · exact renderLoop_format "[" "," "]" (es.map elemStr) es.length
      (by rw [List.length_map]) (by rw [List.length_map]; exact h2)
  · exact renderLoop_format "(" "," ")" (es.map elemStr) es.length
      (by rw [List.length_map]) (by rw [List.length_map]; exact h2)
  · exact renderLoop_single "[" "," "]" (elemStr e)
  · exact renderLoop_single "(" "," ")" (elemStr e)

/-- C1 counterexample: the single-element integer array `[5]` renders as
`"[5"` — the first-index branch shadows the last-index branch, so the
closing bracket is never emitted and the result's last character is not
`']'`; the single-element list behaves the same way. -/
theorem C1_counterexample :
    settingValueToString (.sArray [.sInt 5]) = "[5" ∧
    settingValueToString (.sArray [.sInt 5]) ≠ "[5]" ∧
    settingValueToString (.sList [.sInt 5]) = "(5" := by
  decide

/-- C1 witness: the two-element integer array `[1, 2]` satisfies the
hypotheses and renders as `"[1,2]"`. -/
theorem C1_witness :
    settingValueToString (.sArray [.sInt 1, .sInt 2]) = "[1,2]" ∧
    settingValueToString (.sArray [.sInt 7]) = "[7" := by
  have h := C1_array_list_render [.sInt 1, .sInt 2] (.sInt 7)
    (by decide) (by decide)
  exact ⟨h.1.trans (by decide), h.2.2.1.trans (by decide)⟩

/-- C2 (amended): through `getSettingValue`, a group with at least two
named children renders with the first child prefixed by `"{\n"`, each
subsequent child joined by `", \n"`, each child as `"name = value"`, and
the last child suffixed by `"\n}"`; the two-child group `{a = 1, b = 2}`
gives exactly `"{\na = 1, \nb = 2\n}"`.  A single-child group receives
the opening `"{\n"` but not the closing `"\n}"`. -/
theorem C2_group_render (config : Config) (path : String)
    (cs : List (String × Setting))
    (hlook : config.lookup path = some (.sGroup cs)) (h2 : 2 ≤ cs.length) :
    (getSettingValue config path).1 =
      "\x7b\n" ++
        joinSep ", \n"
          (cs.map fun c => c.1 ++ " = " ++ settingValueToString c.2) ++
        "\n\x7d" := by
  have hval : getSettingValue config path =
      (renderLoop "\x7b\n" ", \n" "\n\x7d" cs.length 0
        (cs.map fun c => c.1 ++ " = " ++ settingValueToString c.2) "", []) := by
    unfold getSettingValue; rw [hlook]
  rw [hval]
  exact renderLoop_format _ _ _ _ _
    (by rw [List.length_map]) (by rw [List.length_map]; exact h2)

/-- C2 counterexample: the single-child group `{a = 1}` renders through
`getSettingValue` as `"{\na = 1"` — the result does not end with `'}'`. -/
theorem C2_counterexample :
    (getSettingValue cfgOneChild "g").1 = "\x7b\na = 1" ∧
    (getSettingValue cfgOneChild "g").1 ≠ "\x7b\na = 1\n\x7d" := by
  decide

/-- C2 witness: the two-child group `{a = 1, b = 2}` satisfies the
hypotheses and renders exactly as the claim's pinned string. -/
theorem C2_witness :
    (getSettingValue cfgTwoChild "g").1 = "\x7b\na = 1, \nb = 2\n\x7d" := by
  have h := C2_group_render cfgTwoChild "g"
    [("a", .sInt 1), ("b", .sInt 2)] rfl (by decide)
  exact h.trans (by decide)

/-- C3 (amended): when `getSettingValue` expands a group, each child is
rendered by `settingValueToString`, which maps every group-kind child to
the empty string — nested groups are NOT recursively expanded; the output
equals the expansion in which every group-kind child contributes an empty
value. -/
theorem C3_nested_groups_not_expanded (config : Config) (path : String)
    (cs : List (String × Setting))
    (hlook : config.lookup path = some (.sGroup cs)) :
    (getSettingValue config path).1 =
      renderLoop "\x7b\n" ", \n" "\n\x7d" cs.length 0
        (cs.map fun c => c.1 ++ " = " ++
          (if kindOf c.2 = .tGroup then "" else settingValueToString c.2))
        "" := by
  have hval : getSettingValue config path =
      (renderLoop "\x7b\n" ", \n" "\n\x7d" cs.length 0
        (cs.map fun c => c.1 ++ " = " ++ settingValueToString c.2) "", []) := by
    unfold getSettingValue; rw [hlook]
  rw [hval]
  have hmap : (cs.map fun c => c.1 ++ " = " ++ settingValueToString c.2) =
      cs.map fun c => c.1 ++ " = " ++
        (if kindOf c.2 = .tGroup then "" else settingValueToString c.2) := by
    apply List.map_congr_left
    intro c _
    rcases c with ⟨name, s⟩
    cases s <;> rfl
  rw [hmap]

/-- C3 counterexample: for a group whose child `inner` is itself the
non-empty group `{x = 1, y = 2}`, the rendered output carries an empty
value for `inner` — not the nested group's expansion. -/
theorem C3_counterexample :
    (getSettingValue cfgNested "g").1 = "\x7b\ninner = , \nz = 3\n\x7d" ∧
    (getSettingValue cfgNested "g").1 ≠
      "\x7b\ninner = \x7b\nx = 1, \ny = 2\n\x7d, \nz = 3\n\x7d" := by
  decide

/-- C3 witness: the amended theorem applied to the nested-group fixture,
with both sides evaluated. -/
theorem C3_witness :
    (getSettingValue cfgNested "g").1 = "\x7b\ninner = , \nz = 3\n\x7d" := by
  have h := C3_nested_groups_not_expanded cfgNested "g"
    [("inner", .sGroup [("x", .sInt 1), ("y", .sInt 2)]), ("z", .sInt 3)] rfl
  exact h.trans (by decide)

/-- C4: for every config, looking up the alias `"scalers_use_pps"` through
`getCommonSettingValue` returns exactly
`getSettingValue config "radiant.scalers.use_pps"` — alias indirection
through the fixed table is transparent. -/
theorem C4_alias_transparent (config : Config) :
    getCommonSettingValue config "scalers_use_pps" =
      getSettingValue config "radiant.scalers.use_pps" := rfl

/-- C5: for every config and every alias string containing a `'.'`,
`getCommonSettingValue` delegates directly to `getSettingValue` on that
same string, bypassing the alias table. -/
theorem C5_dotted_bypass (config : Config) (a : String)
    (h : a.toList.contains '.' = true) :
    getCommonSettingValue config a = getSettingValue config a := by
  unfold getCommonSettingValue
  rw [if_pos h]

/-- C5 witness: the dotted path `"radiant.scalers.period"` contains a dot
and is passed straight through. -/
theorem C5_witness :
    ("radiant.scalers.period".toList.contains '.' = true) ∧
    getCommonSettingValue cfgEmpty "radiant.scalers.period" =
      getSettingValue cfgEmpty "radiant.scalers.period" :=
  ⟨by decide, C5_dotted_bypass cfgEmpty "radiant.scalers.period" (by decide)⟩

/-- C6: a lookup on a path absent from the config is caught inside
`getSettingValue`: the function returns the empty string together with a
single diagnostic line that ends with the looked-up path — the failure
never propagates to the caller. -/
theorem C6_lookup_failure (config : Config) (path : String)
    (h : config.lookup path = none) :
    getSettingValue config path = ("", [lookupErrorMsg path]) ∧
    ∃ pre, lookupErrorMsg path = pre ++ path := by
  constructor
  · unfold getSettingValue; rw [h]
  · exact ⟨"Error: " ++ settingExceptionWhat ++ ": ", rfl⟩

/-- C6 witness: looking up `"a.b"` in the empty config returns the empty
string and the diagnostic naming the path. -/
theorem C6_witness :
    getSettingValue cfgEmpty "a.b" =
      ("", ["Error: SettingNotFoundException: a.b"]) :=
  ((C6_lookup_failure cfgEmpty "a.b" rfl).1).trans (by decide)

/-- C7: for every config, an alias containing no `'.'` and different from
all three keys of the fixed alias table is reported as an unknown alias
and yields the empty string, regardless of the config's contents. -/
theorem C7_unknown_alias (config : Config) (a : String)
    (hdot : a.toList.contains '.' = false)
    (h0 : a ≠ "rf0_enabled") (h1 : a ≠ "rf1_enabled")
    (h2 : a ≠ "scalers_use_pps") :
    getCommonSettingValue config a =
      ("", ["Error: Unknown common setting alias: " ++ a]) := by
  have b0 : (a == "rf0_enabled") = false := beq_eq_false_iff_ne.mpr h0
  have b1 : (a == "rf1_enabled") = false := beq_eq_false_iff_ne.mpr h1
  have b2 : (a == "scalers_use_pps") = false := beq_eq_false_iff_ne.mpr h2
  have hlk : commonSettings.lookup a = none := by
    simp [commonSettings, List.lookup, b0, b1, b2]
  unfold getCommonSettingValue
  rw [if_neg (by rw [hdot]; exact Bool.false_ne_true), hlk]

/-- C7 witness: the alias `"nonexistent_alias"` is unknown and is reported
with the empty string as result. -/
theorem C7_witness :
    getCommonSettingValue cfgEmpty "nonexistent_alias" =
      ("", ["Error: Unknown common setting alias: nonexistent_alias"]) :=
  (C7_unknown_alias cfgEmpty "nonexistent_alias"
    (by decide) (by decide) (by decide) (by decide)).trans (by decide)

/-- C8: unsupported kinds never abort rendering: an array/list element
whose kind is neither integer nor float contributes the empty string to
the rendered sequence while the surrounding separators and brackets are
emitted exactly as for any other elements, and `settingValueToString`
applied at top level to a group returns the empty string. -/
theorem C8_unsupported_kinds (es : List Setting) (e : Setting)
    (gs : List (String × Setting)) (h2 : 2 ≤ es.length)
    (hk : kindOf e ≠ .tInt ∧ kindOf e ≠ .tFloat) :
    elemStr e = "" ∧
    settingValueToString (.sArray es) =
      "[" ++ joinSep "," (es.map elemStr) ++ "]" ∧
    settingValueToString (.sList es) =
      "(" ++ joinSep "," (es.map elemStr) ++ ")" ∧
    settingValueToString (.sGroup gs) = "" := by
  refine ⟨?_, ?_, ?_, rfl⟩
  · cases e with
    | sInt v => exact absurd rfl hk.1
    | sFloat t s => exact absurd rfl hk.2
    | _ => rfl
  · exact renderLoop_format "[" "," "]" (es.map elemStr) es.length
      (by rw [List.length_map]) (by rw [List.length_map]; exact h2)
  · exact renderLoop_format "(" "," ")" (es.map elemStr) es.length
      (by rw [List.length_map]) (by rw [List.length_map]; exact h2)

/-- C8 witness: the array holding a boolean and a string (both unsupported
element kinds) renders as `"[,]"`: empty fields, brackets and a comma. -/
theorem C8_witness :
    elemStr (Setting.sBool true) = "" ∧
    settingValueToString (.sArray [.sBool true, .sString "x"]) = "[,]" ∧
    settingValueToString (.sGroup [("a", .sInt 1)]) = "" := by
  have h := C8_unsupported_kinds [.sBool true, .sString "x"] (.sBool true)
    [("a", .sInt 1)] (by decide) (by decide)
  exact ⟨h.1, h.2.1.trans (by decide), h.2.2.2⟩

/-- C9: the example entry point `configReader` ignores its
`setting_path_alias` argument entirely: any two argument values give the
same behavior, which always equals `readConfigFile` at the hard-coded
path `"radiant.scalers.period"`. -/
theorem C9_entry_point_ignores_argument (station run : Int)
    (directory a1 a2 : String) (w : World) :
    configReader station run directory a1 w =
      configReader station run directory a2 w ∧
    configReader station run directory a1 w =
      readConfigFile station run directory "radiant.scalers.period" w :=
  ⟨rfl, rfl⟩

/-- The process state after `readConfigFile`: the working directory is
`"/"` in every outcome branch and the filesystem is untouched. -/
theorem readConfigFile_state (station run : Int) (directory p : String)
    (w : World) :
    (readConfigFile station run directory p w).1 = ⟨"/", w.fs⟩ := by
  obtain ⟨c, fs⟩ := w
  unfold readConfigFile
  dsimp only
  cases fs (resolvePath "/"
      (directory ++ "/station" ++ toString station ++ "/run" ++ toString run
        ++ "/cfg/" ++ "acq.cfg")) <;> rfl

/-- C10: `readConfigFile` performs `chdir("/")` before opening the
configuration file on every invocation, including failing ones: the final
working directory is `"/"` (the change persists after the call, the
filesystem is untouched), and the whole call is independent of the
caller's working directory — a relative `directory` is resolved against
the filesystem root, never against the caller's directory. -/
theorem C10_chdir_root (station run : Int) (directory p : String)
    (w : World) :
    (readConfigFile station run directory p w).1.cwd = "/" ∧
    (readConfigFile station run directory p w).1.fs = w.fs ∧
    ∀ w' : World, w'.fs = w.fs →
      readConfigFile station run directory p w' =
        readConfigFile station run directory p w := by
  refine ⟨?_, ?_, ?_⟩
  · rw [readConfigFile_state]
  · rw [readConfigFile_state]
  · intro w' hfs
    obtain ⟨c1, fs1⟩ := w
    obtain ⟨c2, fs2⟩ := w'
    simp only at hfs
    subst hfs
    rfl

/-- C10 witness: the chdir persists and two callers that differ only in
their working directory observe identical behavior. -/
theorem C10_witness :
    (readConfigFile 23 327 "data/handcarry22/rootified"
        "radiant.scalers.use_pps" ⟨"/home", fun _ => .missing⟩).1.cwd = "/" ∧
    readConfigFile 23 327 "data/handcarry22/rootified"
        "radiant.scalers.use_pps" ⟨"/other", fun _ => .missing⟩ =
      readConfigFile 23 327 "data/handcarry22/rootified"
        "radiant.scalers.use_pps" ⟨"/home", fun _ => .missing⟩ := by
  have h := C10_chdir_root 23 327 "data/handcarry22/rootified"
    "radiant.scalers.use_pps" ⟨"/home", fun _ => .missing⟩
  exact ⟨h.1, h.2.2 ⟨"/other", fun _ => .missing⟩ rfl⟩

end ConfigReader
